import Mathlib

/-!
# AegisSOC operator console: triage filter and assistant session

A shallow embedding of the stateful core of `src/frontend/src/App.jsx`
(component `AegisSOC`): the derived value `filteredAlerts`, the handlers
`handleSendMessage` and `handleAskAI`, and the JSX bindings that invoke them.

Modelling conventions.

* JavaScript strings are Lean `String`s (sequences of Unicode scalar values);
  `String.prototype.includes` is the contiguous-substring test on the
  character lists.
* `String.prototype.toLowerCase` folds case by the tables of the Unicode
  Character Database, which belong to the JavaScript runtime and not to the
  repository. The filter therefore takes the method as a parameter
  `toLowerCase`, and each theorem states what it assumes of it: that it maps
  the empty string to itself, or that on a string of ASCII characters it
  replaces `A`-`Z` by `a`-`z` and leaves the rest.
* React state is one record `AppState`; a handler reads the state of the
  render it was created in and returns the state after its updates.
* The asynchronous `handleSendMessage` is cut at its single suspension point
  (`await fetch`): the part before it, and the part that runs once the
  exchange has settled.
* A state update takes effect in the render that follows the handler. When an
  updater throws in that render, React unmounts the component (there is no
  error boundary) and no state is left: the result is `none`.
-/

namespace AegisSOC

/-! ## JavaScript string primitives -/

/-- True when every character of the string is an ASCII character. -/
def isAscii (s : String) : Bool :=
  s.data.all fun c => c.toNat < 128

/-- What `String.prototype.toLowerCase` does to a string of ASCII characters:
`A`-`Z` become `a`-`z`, every other character stays. On other strings this
function is not the JavaScript method. -/
def asciiToLowerCase (s : String) : String :=
  ⟨s.data.map Char.toLower⟩

/-- A property of `String.prototype.toLowerCase`: on a string of ASCII
characters it is `asciiToLowerCase`. -/
def LowersAscii (toLowerCase : String → String) : Prop :=
  ∀ s : String, isAscii s = true → toLowerCase s = asciiToLowerCase s

/-- The method `String.prototype.includes`: `includes s t` is `s.includes(t)`,
true when `t` occurs in `s` as a contiguous run of characters. -/
def includes (s t : String) : Bool :=
  decide (t.data <:+: s.data)

/-- Code points that `String.prototype.trim` strips: the ECMAScript
`WhiteSpace` and `LineTerminator` productions. -/
def isWhiteSpace (c : Char) : Bool :=
  let n := c.toNat
  n = 0x09 || n = 0x0A || n = 0x0B || n = 0x0C || n = 0x0D || n = 0x20 ||
  n = 0xA0 || n = 0x1680 || (0x2000 ≤ n && n ≤ 0x200A) ||
  n = 0x2028 || n = 0x2029 || n = 0x202F || n = 0x205F || n = 0x3000 ||
  n = 0xFEFF

/-- The method `String.prototype.trim`: white space removed from both ends. -/
def trim (s : String) : String :=
  ⟨((s.data.dropWhile isWhiteSpace).reverse.dropWhile isWhiteSpace).reverse⟩

/-- JavaScript truthiness of a string: every string but the empty one. -/
def truthy (s : String) : Bool :=
  !(s.data.isEmpty)

/-! ## Data model -/

/-- An element of `mockAlerts` (lines 6-13). -/
structure Alert where
  id : Nat
  severity : String
  type : String
  source : String
  target : String
  time : String
  status : String
  description : String
  deriving DecidableEq

/-- A JavaScript value held in the `content` property of a turn: a string
(lines 66 and 100), or whatever `data.response` evaluates to at line 94. -/
inductive JsValue where
  /-- The value `undefined`. -/
  | undefined
  /-- A string. -/
  | string (s : String)
  /-- Any JSON value that is not a string (`null`, a boolean, a number, an
  array or an object), identified by its JSON text. -/
  | other (jsonText : String)
  deriving DecidableEq

/-- An element of `chatMessages`: `{ role, content }`. -/
structure ChatMessage where
  role : String
  content : JsValue
  deriving DecidableEq

/-- An element of the `messages` array placed in the request body
(lines 78-81). -/
structure RequestMessage where
  role : String
  content : JsValue
  deriving DecidableEq

/-- The `useState` cells of the component (lines 42-48). -/
structure AppState where
  activeTab : String
  alerts : List Alert
  searchTerm : String
  filterSeverity : String
  chatMessages : List ChatMessage
  inputMessage : String
  isLoading : Bool
  deriving DecidableEq

/-- The six records of `mockAlerts` (lines 6-13). -/
def mockAlerts : List Alert :=
  [ { id := 1, severity := "critical", type := "Malware", source := "192.168.1.50",
      target := "DB-Server-01", time := "2 min ago", status := "open",
      description := "Trojan.GenericKD detected on database server" },
    { id := 2, severity := "high", type := "DDoS", source := "203.45.67.89",
      target := "Web-Server-03", time := "5 min ago", status := "investigating",
      description := "Unusual traffic spike from external IP" },
    { id := 3, severity := "medium", type := "Phishing", source := "external@fake.com",
      target := "user@company.com", time := "12 min ago", status := "open",
      description := "Suspicious email with credential harvesting link" },
    { id := 4, severity := "critical", type := "Ransomware", source := "10.0.5.23",
      target := "File-Server-05", time := "18 min ago", status := "open",
      description := "File encryption activity detected" },
    { id := 5, severity := "high", type := "Brute Force", source := "45.123.67.12",
      target := "SSH-Gateway", time := "25 min ago", status := "resolved",
      description := "Multiple failed SSH login attempts" },
    { id := 6, severity := "medium", type := "Policy Violation", source := "192.168.2.101",
      target := "Internal", time := "30 min ago", status := "investigating",
      description := "Unauthorized USB device detected" } ]

/-- The state of the first render (lines 42-48). -/
def initialState : AppState :=
  { activeTab := "dashboard", alerts := mockAlerts, searchTerm := "",
    filterSeverity := "all", chatMessages := [], inputMessage := "",
    isLoading := false }

/-! ## Triage filter (lines 55-61) -/

/-- Line 56-58: `matchesSearch`, with the runtime's `toLowerCase`. -/
def matchesSearch (toLowerCase : String → String) (searchTerm : String) (alert : Alert) :
    Bool :=
  includes (toLowerCase alert.type) (toLowerCase searchTerm) ||
  includes (toLowerCase alert.source) (toLowerCase searchTerm) ||
  includes (toLowerCase alert.target) (toLowerCase searchTerm)

/-- Line 59: `matchesSeverity`. -/
def matchesSeverity (filterSeverity : String) (alert : Alert) : Bool :=
  filterSeverity == "all" || alert.severity == filterSeverity

/-- Lines 55-61: `alerts.filter(alert => matchesSearch && matchesSeverity)`. -/
def filteredAlerts (toLowerCase : String → String) (alerts : List Alert)
    (searchTerm filterSeverity : String) : List Alert :=
  alerts.filter fun alert =>
    matchesSearch toLowerCase searchTerm alert && matchesSeverity filterSeverity alert

/-- The filtered view of a state, as rendered at line 254. -/
def AppState.filteredAlerts (toLowerCase : String → String) (s : AppState) : List Alert :=
  AegisSOC.filteredAlerts toLowerCase s.alerts s.searchTerm s.filterSeverity

/-- True when the type, source and target of every alert are ASCII strings. -/
def asciiFields (alerts : List Alert) : Bool :=
  alerts.all fun a => isAscii a.type && isAscii a.source && isAscii a.target

/-- The two-alert store of the specification's scenario. -/
def scenarioAlerts : List Alert :=
  [ { id := 1, severity := "critical", type := "Malware", source := "192.168.1.50",
      target := "DB-Server-01", time := "", status := "open", description := "" },
    { id := 2, severity := "medium", type := "Phishing", source := "x@fake.com",
      target := "user@co.com", time := "", status := "open", description := "" } ]

/-! ## Assistant session (lines 63-111) -/

/-- The value `data` that `response.json()` resolves to at line 90, as far as
line 94 looks at it. -/
inductive Payload where
  /-- The JSON value `null`: evaluating `data.response` throws a `TypeError`. -/
  | null
  /-- Any other JSON value; `response` is what `data.response` evaluates to:
  the property when `data` is an object that has it, and `undefined` when it
  has not or when `data` is a boolean, a number, a string or an array. -/
  | value (response : JsValue)
  deriving DecidableEq

/-- How the exchange started at line 74 settles, as seen by the code after
the `await`s of lines 74, 86 and 90. -/
inductive FetchOutcome where
  /-- The promise of `fetch` rejects with an error carrying `message`. -/
  | rejected (message : String)
  /-- The response has `ok = false` and `response.text()` gives `errorText`. -/
  | notOk (errorText : String)
  /-- The response has `ok = true` and `response.json()` rejects with an
  error carrying `message` (the body is not JSON). -/
  | okUnparseable (message : String)
  /-- The response has `ok = true` and `response.json()` gives `data`. -/
  | okJson (data : Payload)
  deriving DecidableEq

/-- Line 64: the guard `if (!inputMessage.trim()) return;` fires. -/
def blankInput (inputMessage : String) : Bool :=
  !(truthy (trim inputMessage))

/-- Line 66: `userMessage`. -/
def userMessage (inputMessage : String) : ChatMessage :=
  { role := "user", content := .string inputMessage }

/-- Lines 78-81: `newMessages.map(m => ({ role: m.role, content: m.content }))`. -/
def requestBody (newMessages : List ChatMessage) : List RequestMessage :=
  newMessages.map fun m => { role := m.role, content := m.content }

/-- Lines 64-83 of `handleSendMessage`, up to the suspension at `await fetch`:
the state after the three updates of lines 69-71 and the request body handed
to `fetch` (`none` when the handler returned at line 64). -/
def handleSendMessageDispatch (s : AppState) : AppState × Option (List RequestMessage) :=
  if blankInput s.inputMessage then (s, none)
  else
    let newMessages := s.chatMessages ++ [userMessage s.inputMessage]
    ({ s with chatMessages := newMessages, inputMessage := "", isLoading := true },
     some (requestBody newMessages))

/-- The `try` block after `fetch` has settled (lines 85-95): either the
message of the error thrown at line 74, 87 or 90, or the value `data` with
which line 92 is reached. Line 92 only hands the updater to `setChatMessages`
and cannot throw. -/
def tryBody (o : FetchOutcome) : Except String Payload :=
  match o with
  | .rejected message => .error message
  | .notOk errorText => .error ("Server error: " ++ errorText)
  | .okUnparseable message => .error message
  | .okJson data => .ok data

/-- The updater `prev => [...prev, { role: 'assistant', content: data.response }]`
of lines 92-95, which React runs when it renders. The result is `none` when
evaluating `data.response` throws. -/
def successUpdater (data : Payload) (prev : List ChatMessage) : Option (List ChatMessage) :=
  match data with
  | .null => none
  | .value response => some (prev ++ [{ role := "assistant", content := response }])

/-- The turn appended by the `catch` block, lines 98-101. -/
def failureNotice (message : String) : ChatMessage :=
  { role := "assistant", content := .string ("Failed to get response: " ++ message) }

/-- Lines 85-104 of `handleSendMessage` and the render that follows, on the
state current when the exchange settles. When the `try` block throws, the
`catch` block appends the notice; otherwise the updater of lines 92-95 is
applied; in both cases the `finally` block clears `isLoading`. The result is
`none` when the updater throws during the render: that is outside the `try`
of line 73, no error boundary exists, and React unmounts the component, so no
state is left. -/
def handleSendMessageSettle (o : FetchOutcome) (s : AppState) : Option AppState :=
  match tryBody o with
  | .error message =>
    some { s with chatMessages := s.chatMessages ++ [failureNotice message],
                  isLoading := false }
  | .ok data =>
    match successUpdater data s.chatMessages with
    | some messages => some { s with chatMessages := messages, isLoading := false }
    | none => none

/-- Lines 63-105: one whole call of `handleSendMessage` whose exchange settles
as `o`, nothing else touching the state in between. The result is `none` when
the component is unmounted. -/
def handleSendMessage (s : AppState) (o : FetchOutcome) : Option AppState :=
  match handleSendMessageDispatch s with
  | (s', none) => some s'
  | (s', some _) => handleSendMessageSettle o s'

/-- Lines 107-111: `handleAskAI`. -/
def handleAskAI (s : AppState) (alert : Alert) : AppState :=
  let query := "Analyze this alert: " ++ alert.type ++ " - " ++ alert.description
  { s with activeTab := "copilot", inputMessage := query }

/-- Line 388: `onChange` of the co-pilot input, `setInputMessage(e.target.value)`. -/
def inputOnChange (value : String) (s : AppState) : AppState :=
  { s with inputMessage := value }

/-- Line 389: `onKeyPress` of the co-pilot input,
`e.key === 'Enter' && handleSendMessage()`. -/
def inputOnKeyPress (key : String) (s : AppState) : AppState × Option (List RequestMessage) :=
  if key == "Enter" then handleSendMessageDispatch s else (s, none)

/-- Lines 393-395: a click on the Send button, which is `disabled` while
`isLoading` holds and otherwise runs `handleSendMessage`. -/
def sendButtonOnClick (s : AppState) : AppState × Option (List RequestMessage) :=
  if s.isLoading then (s, none) else handleSendMessageDispatch s

/-- A session with one exchange outstanding and a second question typed into
the input box. -/
def inFlightState : AppState :=
  { initialState with
    activeTab := "copilot",
    chatMessages := [userMessage "first question"],
    inputMessage := "second question",
    isLoading := true }

/-- A session on the co-pilot tab with a question typed and nothing in
flight. -/
def askedState : AppState :=
  { initialState with activeTab := "copilot", inputMessage := "Is this ransomware?" }

/-- A session whose input box holds white space only, with one earlier turn
in the transcript. -/
def blankState : AppState :=
  { initialState with
    activeTab := "copilot",
    chatMessages := [userMessage "earlier"],
    inputMessage := " \t " }

/-- The fourth record of `mockAlerts` (line 10). -/
def ransomwareAlert : Alert :=
  { id := 4, severity := "critical", type := "Ransomware", source := "10.0.5.23",
    target := "File-Server-05", time := "18 min ago", status := "open",
    description := "File encryption activity detected" }

/-- A session with one completed exchange in the transcript and a follow-up
question typed. -/
def followUpState : AppState :=
  { initialState with
    activeTab := "copilot",
    chatMessages :=
      [userMessage "Is this ransomware?",
       { role := "assistant", content := .string "Likely ransomware, isolate host" }],
    inputMessage := "What next?" }

/-! ## Session operations as a transition system -/

/-- The operations that act on the assistant session: the handlers of lines
63-111 and the JSX bindings of lines 388-395 that invoke them. -/
inductive SessionOp where
  /-- The Ask AI button of line 280: `handleAskAI(alert)`. -/
  | composeFromAlert (alert : Alert)
  /-- Typing in the input box (line 388) or a quick command (line 416). -/
  | editInput (value : String)
  /-- A call of `handleSendMessage`, up to its suspension. -/
  | send
  /-- A key pressed in the input box (line 389). -/
  | pressKey (key : String)
  /-- A click on the Send button (lines 393-395). -/
  | clickSend
  /-- The outstanding exchange settles as `o`: lines 85-104 run. -/
  | settle (o : FetchOutcome)
  deriving DecidableEq

/-- The state after one session operation; `none` when the component is
unmounted by it. -/
def applyOp (op : SessionOp) (s : AppState) : Option AppState :=
  match op with
  | .composeFromAlert alert => some (handleAskAI s alert)
  | .editInput value => some (inputOnChange value s)
  | .send => some (handleSendMessageDispatch s).1
  | .pressKey key => some (inputOnKeyPress key s).1
  | .clickSend => some (sendButtonOnClick s).1
  | .settle o => handleSendMessageSettle o s

/-- The state after a sequence of session operations, first to last; `none`
when one of them unmounts the component. -/
def runOps (ops : List SessionOp) (s : AppState) : Option AppState :=
  match ops with
  | [] => some s
  | op :: rest =>
    match applyOp op s with
    | some s' => runOps rest s'
    | none => none

/-- A session history from the first render: a question sent with the Enter
key, a failed exchange, a second question sent with the button, and a
successful exchange. -/
def sampleOps : List SessionOp :=
  [.editInput "Is this ransomware?", .pressKey "Enter", .settle (.notOk "busy"),
   .editInput "And now?", .clickSend,
   .settle (.okJson (.value (.string "Isolate the host")))]

/-- The state in which `sampleOps` ends. -/
def sampleFinalState : AppState :=
  { initialState with
    chatMessages :=
      [{ role := "user", content := .string "Is this ransomware?" },
       { role := "assistant",
         content := .string "Failed to get response: Server error: busy" },
       { role := "user", content := .string "And now?" },
       { role := "assistant", content := .string "Isolate the host" }] }

/-! ## Alert store -/

/-- The error kinds of the alert store. -/
inductive StoreError where
  | NotFound
  deriving DecidableEq

/-- Modelled from the spec: the alert store operation `getAll`, absent from
`App.jsx` (which only declares the cell `alerts` and its unused setter
`setAlerts` at line 43). It returns the sequence of records of the store. -/
def getAll (store : List Alert) : List Alert :=
  store

/-- Modelled from the spec: the alert store operation `updateStatus`, absent
from `App.jsx` (which only declares the cell `alerts` and its unused setter
`setAlerts` at line 43). Following sections 4.1 and 7 of the specification,
`updateStatus(id, newStatus)` fails with `NotFound` when no record has the id,
and otherwise mutates the one record with that id in place and returns it. The
result is the store after the call together with the outcome. -/
def updateStatus (store : List Alert) (id : Nat) (newStatus : String) :
    List Alert × Except StoreError Alert :=
  match store with
  | [] => ([], .error .NotFound)
  | a :: rest =>
    if a.id = id then
      ({ a with status := newStatus } :: rest, .ok { a with status := newStatus })
    else
      ((a :: (updateStatus rest id newStatus).1), (updateStatus rest id newStatus).2)

/-- The record with its status blanked: everything `updateStatus` must keep. -/
def Alert.withoutStatus (a : Alert) : Alert :=
  { a with status := "" }

/-! ## Auxiliary facts -/

theorem LowersAscii.empty {toLowerCase : String → String} (h : LowersAscii toLowerCase) :
    toLowerCase "" = "" :=
  h "" rfl

theorem lowersAscii_asciiToLowerCase : LowersAscii asciiToLowerCase :=
  fun _ _ => rfl

theorem includes_iff (s t : String) : includes s t = true ↔ t.data <:+: s.data := by
  simp [includes]

theorem includes_empty (s : String) : includes s "" = true := by
  rw [includes_iff]
  exact List.nil_infix

theorem matchesSearch_iff (toLowerCase : String → String) (searchTerm : String)
    (alert : Alert) :
    matchesSearch toLowerCase searchTerm alert = true ↔
      ((toLowerCase searchTerm).data <:+: (toLowerCase alert.type).data ∨
       (toLowerCase searchTerm).data <:+: (toLowerCase alert.source).data ∨
       (toLowerCase searchTerm).data <:+: (toLowerCase alert.target).data) := by
  simp only [matchesSearch, Bool.or_eq_true, includes_iff, or_assoc]

theorem matchesSeverity_iff (filterSeverity : String) (alert : Alert) :
    matchesSeverity filterSeverity alert = true ↔
      (filterSeverity = "all" ∨ alert.severity = filterSeverity) := by
  simp [matchesSeverity]

theorem matchesSearch_empty (toLowerCase : String → String) (hempty : toLowerCase "" = "")
    (alert : Alert) : matchesSearch toLowerCase "" alert = true := by
  simp [matchesSearch, hempty, includes_empty]

theorem filteredAlerts_congr (f g : String → String) (alerts : List Alert)
    (searchTerm filterSeverity : String) (hterm : f searchTerm = g searchTerm)
    (hfields : ∀ a ∈ alerts,
      f a.type = g a.type ∧ f a.source = g a.source ∧ f a.target = g a.target) :
    filteredAlerts f alerts searchTerm filterSeverity =
      filteredAlerts g alerts searchTerm filterSeverity := by
  unfold filteredAlerts
  apply List.filter_congr
  intro a ha
  obtain ⟨h1, h2, h3⟩ := hfields a ha
  simp only [matchesSearch, hterm, h1, h2, h3]

theorem filteredAlerts_ascii (toLowerCase : String → String) (hascii : LowersAscii toLowerCase)
    (alerts : List Alert) (searchTerm filterSeverity : String)
    (hterm : isAscii searchTerm = true) (hfields : asciiFields alerts = true) :
    filteredAlerts toLowerCase alerts searchTerm filterSeverity =
      filteredAlerts asciiToLowerCase alerts searchTerm filterSeverity := by
  apply filteredAlerts_congr _ _ _ _ _ (hascii _ hterm)
  intro a ha
  have h := List.all_eq_true.mp hfields a ha
  simp only [Bool.and_eq_true] at h
  exact ⟨hascii _ h.1.1, hascii _ h.1.2, hascii _ h.2⟩

/-- The Kelvin sign U+212A, which `toLowerCase` maps to `k`, finds the alert
whose type and source contain a `k`. -/
theorem filteredAlerts_kelvin (toLowerCase : String → String) (hascii : LowersAscii toLowerCase)
    (hkelvin : toLowerCase "\u212A" = "k") :
    (filteredAlerts toLowerCase mockAlerts "\u212A" "all").map (fun a => a.id) = [3] := by
  have h : filteredAlerts toLowerCase mockAlerts "\u212A" "all" =
      filteredAlerts (fun s => if s = "\u212A" then "k" else asciiToLowerCase s)
        mockAlerts "\u212A" "all" := by
    apply filteredAlerts_congr
    · simpa using hkelvin
    · intro a ha
      have hf : ∀ b ∈ mockAlerts,
          (isAscii b.type = true ∧ b.type ≠ "\u212A") ∧
          (isAscii b.source = true ∧ b.source ≠ "\u212A") ∧
          (isAscii b.target = true ∧ b.target ≠ "\u212A") := by decide
      obtain ⟨⟨h1, n1⟩, ⟨h2, n2⟩, ⟨h3, n3⟩⟩ := hf a ha
      simp only [n1, n2, n3, if_false]
      exact ⟨hascii _ h1, hascii _ h2, hascii _ h3⟩
  rw [h]
  decide

theorem blankInput_iff (inputMessage : String) :
    blankInput inputMessage = true ↔ trim inputMessage = "" := by
  cases h : trim inputMessage with
  | mk cs =>
    cases cs with
    | nil => simp [blankInput, truthy, h]
    | cons c cs =>
      simp only [blankInput, truthy, h, List.isEmpty_cons, Bool.not_false, Bool.not_true]
      constructor
      · intro hf; cases hf
      · intro hf
        have hd : (c :: cs) = [] := congrArg String.data hf
        cases hd

theorem blankInput_eq_false (inputMessage : String) (h : trim inputMessage ≠ "") :
    blankInput inputMessage = false := by
  cases hb : blankInput inputMessage with
  | false => rfl
  | true => exact absurd ((blankInput_iff inputMessage).mp hb) h

theorem dispatch_of_nonblank (s : AppState) (h : trim s.inputMessage ≠ "") :
    handleSendMessageDispatch s =
      ({ s with chatMessages := s.chatMessages ++ [userMessage s.inputMessage],
                inputMessage := "", isLoading := true },
       some (requestBody (s.chatMessages ++ [userMessage s.inputMessage]))) := by
  simp [handleSendMessageDispatch, blankInput_eq_false s.inputMessage h]

theorem dispatch_of_blank (s : AppState) (h : trim s.inputMessage = "") :
    handleSendMessageDispatch s = (s, none) := by
  simp [handleSendMessageDispatch, (blankInput_iff s.inputMessage).mpr h]

theorem handleSendMessage_of_nonblank (s : AppState) (o : FetchOutcome)
    (h : trim s.inputMessage ≠ "") :
    handleSendMessage s o =
      handleSendMessageSettle o
        { s with chatMessages := s.chatMessages ++ [userMessage s.inputMessage],
                 inputMessage := "", isLoading := true } := by
  simp [handleSendMessage, dispatch_of_nonblank s h]

theorem settle_of_error (o : FetchOutcome) (message : String) (s : AppState)
    (h : tryBody o = .error message) :
    handleSendMessageSettle o s =
      some { s with chatMessages := s.chatMessages ++ [failureNotice message],
                    isLoading := false } := by
  simp [handleSendMessageSettle, h]

theorem settle_of_value (response : JsValue) (s : AppState) :
    handleSendMessageSettle (.okJson (.value response)) s =
      some { s with
        chatMessages := s.chatMessages ++ [{ role := "assistant", content := response }],
        isLoading := false } := rfl

theorem settle_of_null (s : AppState) :
    handleSendMessageSettle (.okJson .null) s = none := rfl

theorem settle_some (o : FetchOutcome) (s s' : AppState)
    (h : handleSendMessageSettle o s = some s') :
    ∃ m : ChatMessage, m.role = "assistant" ∧
      s'.chatMessages = s.chatMessages ++ [m] ∧ s'.isLoading = false := by
  cases o with
  | rejected message =>
    cases h
    exact ⟨failureNotice message, rfl, rfl, rfl⟩
  | notOk errorText =>
    cases h
    exact ⟨failureNotice ("Server error: " ++ errorText), rfl, rfl, rfl⟩
  | okUnparseable message =>
    cases h
    exact ⟨failureNotice message, rfl, rfl, rfl⟩
  | okJson data =>
    cases data with
    | null => cases h
    | value response =>
      cases h
      exact ⟨{ role := "assistant", content := response }, rfl, rfl, rfl⟩

theorem settle_eq_none_iff (o : FetchOutcome) (s : AppState) :
    handleSendMessageSettle o s = none ↔ o = .okJson .null := by
  cases o with
  | rejected message => simp [handleSendMessageSettle, tryBody]
  | notOk errorText => simp [handleSendMessageSettle, tryBody]
  | okUnparseable message => simp [handleSendMessageSettle, tryBody]
  | okJson data =>
    cases data with
    | null => simp [handleSendMessageSettle, tryBody, successUpdater]
    | value response => simp [handleSendMessageSettle, tryBody, successUpdater]

theorem dispatch_chatMessages (s : AppState) :
    (handleSendMessageDispatch s).1.chatMessages = s.chatMessages ∨
    (handleSendMessageDispatch s).1.chatMessages =
      s.chatMessages ++ [userMessage s.inputMessage] := by
  unfold handleSendMessageDispatch
  split
  · exact Or.inl rfl
  · exact Or.inr rfl

theorem applyOp_chatMessages (op : SessionOp) (s s' : AppState)
    (hop : applyOp op s = some s') :
    s'.chatMessages = s.chatMessages ∨
    ∃ m : ChatMessage, (m.role = "user" ∨ m.role = "assistant") ∧
      s'.chatMessages = s.chatMessages ++ [m] := by
  have hd : (handleSendMessageDispatch s).1.chatMessages = s.chatMessages ∨
      ∃ m : ChatMessage, (m.role = "user" ∨ m.role = "assistant") ∧
        (handleSendMessageDispatch s).1.chatMessages = s.chatMessages ++ [m] := by
    rcases dispatch_chatMessages s with h | h
    · exact Or.inl h
    · exact Or.inr ⟨userMessage s.inputMessage, Or.inl rfl, h⟩
  cases op with
  | composeFromAlert alert =>
    cases hop
    exact Or.inl rfl
  | editInput value =>
    cases hop
    exact Or.inl rfl
  | send =>
    cases hop
    exact hd
  | pressKey key =>
    cases hop
    simp only [inputOnKeyPress]
    split
    · exact hd
    · exact Or.inl rfl
  | clickSend =>
    cases hop
    simp only [sendButtonOnClick]
    split
    · exact Or.inl rfl
    · exact hd
  | settle o =>
    obtain ⟨m, hm, hchat, _⟩ := settle_some o s s' hop
    exact Or.inr ⟨m, Or.inr hm, hchat⟩

theorem applyOp_extends (op : SessionOp) (s s' : AppState) (hop : applyOp op s = some s') :
    s.chatMessages <+: s'.chatMessages := by
  rcases applyOp_chatMessages op s s' hop with h | ⟨m, _, h⟩
  · rw [h]
  · rw [h]; exact List.prefix_append _ _

theorem runOps_cons_some (op : SessionOp) (rest : List SessionOp) (s s' : AppState)
    (h : runOps (op :: rest) s = some s') :
    ∃ s1 : AppState, applyOp op s = some s1 ∧ runOps rest s1 = some s' := by
  unfold runOps at h
  cases hop : applyOp op s with
  | none => rw [hop] at h; cases h
  | some s1 => rw [hop] at h; exact ⟨s1, rfl, h⟩

theorem runOps_extends (ops : List SessionOp) (s s' : AppState)
    (hrun : runOps ops s = some s') :
    s.chatMessages <+: s'.chatMessages := by
  induction ops generalizing s with
  | nil =>
    cases hrun
    exact List.prefix_refl _
  | cons op rest ih =>
    obtain ⟨s1, hop, hrest⟩ := runOps_cons_some op rest s s' hrun
    exact (applyOp_extends op s s1 hop).trans (ih s1 hrest)

theorem runOps_roles (ops : List SessionOp) (s s' : AppState)
    (hrun : runOps ops s = some s')
    (hs : ∀ m ∈ s.chatMessages, m.role = "user" ∨ m.role = "assistant") :
    ∀ m ∈ s'.chatMessages, m.role = "user" ∨ m.role = "assistant" := by
  induction ops generalizing s with
  | nil =>
    cases hrun
    exact hs
  | cons op rest ih =>
    obtain ⟨s1, hop, hrest⟩ := runOps_cons_some op rest s s' hrun
    apply ih s1 hrest
    rcases applyOp_chatMessages op s s1 hop with h | ⟨m, hm, h⟩
    · rw [h]; exact hs
    · rw [h]
      intro x hx
      rcases List.mem_append.mp hx with hx | hx
      · exact hs x hx
      · rw [List.mem_singleton.mp hx]; exact hm

theorem updateStatus_missing (store : List Alert) (id : Nat) (newStatus : String)
    (h : ∀ a ∈ store, a.id ≠ id) :
    updateStatus store id newStatus = (store, .error .NotFound) := by
  induction store with
  | nil => rfl
  | cons a rest ih =>
    have ha : a.id ≠ id := h a (List.mem_cons_self a rest)
    have hr := ih (fun b hb => h b (List.mem_cons_of_mem a hb))
    simp [updateStatus, ha, hr]

theorem updateStatus_present (store : List Alert) (id : Nat) (newStatus : String)
    (h : ∃ a ∈ store, a.id = id) :
    ∃ (pre : List Alert) (a0 : Alert) (post : List Alert),
      store = pre ++ a0 :: post ∧ a0.id = id ∧ (∀ b ∈ pre, b.id ≠ id) ∧
      updateStatus store id newStatus =
        (pre ++ { a0 with status := newStatus } :: post,
         .ok { a0 with status := newStatus }) := by
  induction store with
  | nil =>
    obtain ⟨a, ha, _⟩ := h
    cases ha
  | cons a rest ih =>
    by_cases ha : a.id = id
    · exact ⟨[], a, rest, rfl, ha, by simp, by simp [updateStatus, ha]⟩
    · have hrest : ∃ b ∈ rest, b.id = id := by
        obtain ⟨b, hb, hbid⟩ := h
        rcases List.mem_cons.mp hb with hb | hb
        · subst hb; exact absurd hbid ha
        · exact ⟨b, hb, hbid⟩
      obtain ⟨pre, a0, post, hstore, hid, hpre, hupd⟩ := ih hrest
      refine ⟨a :: pre, a0, post, by rw [hstore]; rfl, hid, ?_, ?_⟩
      · intro b hb
        rcases List.mem_cons.mp hb with hb | hb
        · subst hb; exact ha
        · exact hpre b hb
      · simp [updateStatus, ha, hupd]

theorem updateStatus_withoutStatus (store : List Alert) (id : Nat) (newStatus : String) :
    (updateStatus store id newStatus).1.map Alert.withoutStatus =
      store.map Alert.withoutStatus := by
  induction store with
  | nil => rfl
  | cons a rest ih =>
    by_cases ha : a.id = id
    · simp [updateStatus, ha, Alert.withoutStatus]
    · simp [updateStatus, ha, ih]

theorem updateStatus_ids (store : List Alert) (id : Nat) (newStatus : String) :
    (updateStatus store id newStatus).1.map (fun a => a.id) = store.map (fun a => a.id) := by
  induction store with
  | nil => rfl
  | cons a rest ih =>
    by_cases ha : a.id = id
    · simp [updateStatus, ha]
    · simp [updateStatus, ha, ih]

/-! ## Triage filter: membership (C1) -/

/-- C1. For every `toLowerCase` that lower-cases ASCII strings as JavaScript
does: an alert is in the filtered view exactly when it is in the input, the
severity filter is `all` or equals its severity, and the search term is empty
or its lower-cased form is a substring of the lower-cased type, source or
target. The term is not trimmed: a single blank keeps only the alerts with a
blank in one of the three fields. On the two-alert scenario store, the term
`malware` with filter `all` gives exactly the alert with id 1. -/
theorem filteredAlerts_mem_iff (toLowerCase : String → String)
    (hascii : LowersAscii toLowerCase) :
    (∀ (alerts : List Alert) (searchTerm filterSeverity : String) (alert : Alert),
      alert ∈ filteredAlerts toLowerCase alerts searchTerm filterSeverity ↔
        alert ∈ alerts ∧
        (filterSeverity = "all" ∨ alert.severity = filterSeverity) ∧
        (searchTerm = "" ∨
          (toLowerCase searchTerm).data <:+: (toLowerCase alert.type).data ∨
          (toLowerCase searchTerm).data <:+: (toLowerCase alert.source).data ∨
          (toLowerCase searchTerm).data <:+: (toLowerCase alert.target).data)) ∧
    filteredAlerts toLowerCase scenarioAlerts "malware" "all" = scenarioAlerts.take 1 ∧
    (filteredAlerts toLowerCase scenarioAlerts "malware" "all").map (fun a => a.id) = [1] ∧
    (filteredAlerts toLowerCase mockAlerts " " "all").map (fun a => a.id) = [5, 6] := by
  have hscenario := filteredAlerts_ascii toLowerCase hascii scenarioAlerts "malware" "all"
    (by decide) (by decide)
  have hblank := filteredAlerts_ascii toLowerCase hascii mockAlerts " " "all"
    (by decide) (by decide)
  refine ⟨?_, ?_, ?_, ?_⟩
  · intro alerts searchTerm filterSeverity alert
    simp only [filteredAlerts, List.mem_filter, Bool.and_eq_true, matchesSearch_iff,
      matchesSeverity_iff]
    constructor
    · rintro ⟨hmem, hsearch, hsev⟩
      exact ⟨hmem, hsev, Or.inr hsearch⟩
    · rintro ⟨hmem, hsev, hsearch⟩
      refine ⟨hmem, ?_, hsev⟩
      rcases hsearch with hempty | hsearch
      · subst hempty
        rw [hascii.empty]
        exact Or.inl List.nil_infix
      · exact hsearch
  · rw [hscenario]; decide
  · rw [hscenario]; decide
  · rw [hblank]; decide

/-- Witness for C1: the ASCII lower-casing itself satisfies the assumption. -/
theorem filteredAlerts_mem_iff_witness :
    LowersAscii asciiToLowerCase ∧
    (∀ (alerts : List Alert) (searchTerm filterSeverity : String) (alert : Alert),
      alert ∈ filteredAlerts asciiToLowerCase alerts searchTerm filterSeverity ↔
        alert ∈ alerts ∧
        (filterSeverity = "all" ∨ alert.severity = filterSeverity) ∧
        (searchTerm = "" ∨
          (asciiToLowerCase searchTerm).data <:+: (asciiToLowerCase alert.type).data ∨
          (asciiToLowerCase searchTerm).data <:+: (asciiToLowerCase alert.source).data ∨
          (asciiToLowerCase searchTerm).data <:+: (asciiToLowerCase alert.target).data)) ∧
    filteredAlerts asciiToLowerCase scenarioAlerts "malware" "all" = scenarioAlerts.take 1 ∧
    (filteredAlerts asciiToLowerCase scenarioAlerts "malware" "all").map (fun a => a.id) = [1] ∧
    (filteredAlerts asciiToLowerCase mockAlerts " " "all").map (fun a => a.id) = [5, 6] :=
  ⟨fun _ _ => rfl, filteredAlerts_mem_iff asciiToLowerCase (fun _ _ => rfl)⟩

/-! ## Assistant session: sending (C2-C6) -/

/-- C2. The state `inFlightState` is reached from the first render by typing a
question, pressing Enter, and typing a second question while the first
exchange is outstanding (`isLoading = true`). In that state the Send button is
inert, but `handleSendMessage` run by the Enter key of line 389 is not a
no-op: it appends a second user turn (the transcript grows from 1 to 2) and
hands a second request body to `fetch`. -/
theorem handleSendMessage_while_loading :
    inFlightState =
      inputOnChange "second question"
        (inputOnKeyPress "Enter"
          (inputOnChange "first question"
            { initialState with activeTab := "copilot" })).1 ∧
    inFlightState.isLoading = true ∧
    inFlightState.chatMessages.length = 1 ∧
    sendButtonOnClick inFlightState = (inFlightState, none) ∧
    (inputOnKeyPress "Enter" inFlightState).1.chatMessages =
      inFlightState.chatMessages ++ [userMessage "second question"] ∧
    (inputOnKeyPress "Enter" inFlightState).1.chatMessages.length = 2 ∧
    (inputOnKeyPress "Enter" inFlightState).2 =
      some [{ role := "user", content := .string "first question" },
            { role := "user", content := .string "second question" }] := by
  decide

/-- C3. When the input is not blank and the gateway answers with success and
reply text `r`, one whole run of `handleSendMessage` ends in a state whose
transcript is the previous one followed by the user turn carrying the input as
it was and the assistant turn carrying `r`, in that order, with `isLoading`
false. -/
theorem handleSendMessage_success (s : AppState) (r : String)
    (h : trim s.inputMessage ≠ "") :
    ∃ s' : AppState,
      handleSendMessage s (.okJson (.value (.string r))) = some s' ∧
      s'.chatMessages =
        s.chatMessages ++
          [{ role := "user", content := .string s.inputMessage },
           { role := "assistant", content := .string r }] ∧
      s'.isLoading = false := by
  rw [handleSendMessage_of_nonblank s _ h, settle_of_value]
  exact ⟨_, rfl, by simp [userMessage], rfl⟩

/-- Witness for C3: the success scenario of the specification. -/
theorem handleSendMessage_success_witness :
    trim askedState.inputMessage ≠ "" ∧
    ∃ s' : AppState,
      handleSendMessage askedState
          (.okJson (.value (.string "Likely ransomware, isolate host"))) = some s' ∧
      s'.chatMessages =
        askedState.chatMessages ++
          [{ role := "user", content := .string askedState.inputMessage },
           { role := "assistant", content := .string "Likely ransomware, isolate host" }] ∧
      s'.isLoading = false :=
  ⟨by decide,
   handleSendMessage_success askedState "Likely ransomware, isolate host" (by decide)⟩

/-- C4, as the code has it. When the input is not blank and the exchange fails
in one of the three ways the `try` block detects (the transport rejects with
detail `d`, the response is not ok with body `d`, or the response is ok but
its body does not parse as JSON, with detail `d`), one whole run of
`handleSendMessage` ends in a state whose transcript is the previous one
followed by the user turn and exactly one assistant turn whose content is a
notice that starts with `Failed to get response: ` and contains `d`, with
`isLoading` false. A success status whose body parses to a value other than
`null` is handled as a success whatever its shape: the assistant turn carries
`data.response` as it is, without a notice, and `isLoading` is false. -/
theorem handleSendMessage_failure (s : AppState) (o : FetchOutcome) (d : String)
    (h : trim s.inputMessage ≠ "")
    (ho : o = .rejected d ∨ o = .notOk d ∨ o = .okUnparseable d) :
    (∃ (notice : String) (s' : AppState),
      handleSendMessage s o = some s' ∧
      d.data <:+: notice.data ∧
      "Failed to get response: ".data <+: notice.data ∧
      s'.chatMessages =
        s.chatMessages ++
          [{ role := "user", content := .string s.inputMessage },
           { role := "assistant", content := .string notice }] ∧
      s'.isLoading = false) ∧
    (∀ v : JsValue, ∃ s' : AppState,
      handleSendMessage s (.okJson (.value v)) = some s' ∧
      s'.chatMessages =
        s.chatMessages ++
          [{ role := "user", content := .string s.inputMessage },
           { role := "assistant", content := v }] ∧
      s'.isLoading = false) := by
  constructor
  · rw [handleSendMessage_of_nonblank s o h]
    rcases ho with ho | ho | ho <;> subst ho
    · exact ⟨"Failed to get response: " ++ d, _, settle_of_error _ d _ rfl,
        ⟨"Failed to get response: ".data, [], by simp⟩, ⟨d.data, by simp⟩,
        by simp [userMessage, failureNotice], rfl⟩
    · exact ⟨"Failed to get response: " ++ ("Server error: " ++ d), _,
        settle_of_error _ ("Server error: " ++ d) _ rfl,
        ⟨"Failed to get response: ".data ++ "Server error: ".data, [], by simp⟩,
        ⟨("Server error: " ++ d).data, by simp⟩,
        by simp [userMessage, failureNotice], rfl⟩
    · exact ⟨"Failed to get response: " ++ d, _, settle_of_error _ d _ rfl,
        ⟨"Failed to get response: ".data, [], by simp⟩, ⟨d.data, by simp⟩,
        by simp [userMessage, failureNotice], rfl⟩
  · intro v
    rw [handleSendMessage_of_nonblank s _ h, settle_of_value]
    exact ⟨_, rfl, by simp [userMessage], rfl⟩

/-- Witness for C4: a non-success response with body `model overloaded`. -/
theorem handleSendMessage_failure_witness :
    trim askedState.inputMessage ≠ "" ∧
    (∃ (notice : String) (s' : AppState),
      handleSendMessage askedState (.notOk "model overloaded") = some s' ∧
      "model overloaded".data <:+: notice.data ∧
      "Failed to get response: ".data <+: notice.data ∧
      s'.chatMessages =
        askedState.chatMessages ++
          [{ role := "user", content := .string askedState.inputMessage },
           { role := "assistant", content := .string notice }] ∧
      s'.isLoading = false) ∧
    (∀ v : JsValue, ∃ s' : AppState,
      handleSendMessage askedState (.okJson (.value v)) = some s' ∧
      s'.chatMessages =
        askedState.chatMessages ++
          [{ role := "user", content := .string askedState.inputMessage },
           { role := "assistant", content := v }] ∧
      s'.isLoading = false) :=
  ⟨by decide,
   handleSendMessage_failure askedState (.notOk "model overloaded") "model overloaded"
     (by decide) (Or.inr (Or.inl rfl))⟩

/-- C4, as the claim has it, fails for a success status with a malformed
payload. With the empty JSON object as body, which parses but has no
`response`, the run ends with the transcript followed by the user turn and an assistant turn whose
content is `undefined`: no turn carries a notice, so no notice string fits.
With the body `null` the updater of line 92 throws outside the `try` block and
no state is left at all, so `isLoading` is never seen to be false. -/
theorem handleSendMessage_malformed_payload :
    trim askedState.inputMessage ≠ "" ∧
    handleSendMessage askedState (.okJson (.value .undefined)) =
      some { askedState with
        chatMessages :=
          [{ role := "user", content := .string "Is this ransomware?" },
           { role := "assistant", content := .undefined }],
        inputMessage := "",
        isLoading := false } ∧
    (¬ ∃ (notice : String) (s' : AppState),
      handleSendMessage askedState (.okJson (.value .undefined)) = some s' ∧
      s'.chatMessages =
        askedState.chatMessages ++
          [{ role := "user", content := .string askedState.inputMessage },
           { role := "assistant", content := .string notice }]) ∧
    handleSendMessage askedState (.okJson .null) = none ∧
    (¬ ∃ s' : AppState,
      handleSendMessage askedState (.okJson .null) = some s' ∧ s'.isLoading = false) := by
  have hrun : handleSendMessage askedState (.okJson (.value .undefined)) =
      some { askedState with
        chatMessages :=
          [{ role := "user", content := .string "Is this ransomware?" },
           { role := "assistant", content := .undefined }],
        inputMessage := "",
        isLoading := false } := by decide
  have hnull : handleSendMessage askedState (.okJson .null) = none := by decide
  refine ⟨by decide, hrun, ?_, hnull, ?_⟩
  · rintro ⟨notice, s', hs', hchat⟩
    rw [hrun] at hs'
    cases hs'
    simp [askedState, initialState] at hchat
  · rintro ⟨s', hs', _⟩
    rw [hnull] at hs'
    cases hs'

/-- C5. When the input trims to the empty string, `handleSendMessage` returns
at line 64: nothing is handed to `fetch`, and the whole state (transcript,
input, `isLoading` and the rest) is unchanged, also after a whole run
whatever the gateway would have answered. -/
theorem handleSendMessage_blank (s : AppState) (o : FetchOutcome)
    (h : trim s.inputMessage = "") :
    handleSendMessageDispatch s = (s, none) ∧
    handleSendMessage s o = some s ∧
    (handleSendMessage s o).map (fun t => t.chatMessages) = some s.chatMessages ∧
    (handleSendMessage s o).map (fun t => t.inputMessage) = some s.inputMessage ∧
    (handleSendMessage s o).map (fun t => t.isLoading) = some s.isLoading := by
  have hd := dispatch_of_blank s h
  have hs : handleSendMessage s o = some s := by simp [handleSendMessage, hd]
  exact ⟨hd, hs, by rw [hs]; rfl, by rw [hs]; rfl, by rw [hs]; rfl⟩

/-- Witness for C5: an input box holding a blank, a tab and a blank. -/
theorem handleSendMessage_blank_witness :
    trim blankState.inputMessage = "" ∧
    handleSendMessageDispatch blankState = (blankState, none) ∧
    handleSendMessage blankState (.okJson (.value (.string "unused"))) = some blankState ∧
    (handleSendMessage blankState (.okJson (.value (.string "unused")))).map
      (fun t => t.chatMessages) = some blankState.chatMessages ∧
    (handleSendMessage blankState (.okJson (.value (.string "unused")))).map
      (fun t => t.inputMessage) = some blankState.inputMessage ∧
    (handleSendMessage blankState (.okJson (.value (.string "unused")))).map
      (fun t => t.isLoading) = some blankState.isLoading :=
  ⟨by decide,
   handleSendMessage_blank blankState (.okJson (.value (.string "unused"))) (by decide)⟩

/-- C6. When the input is not blank, at the moment the request is handed to
`fetch` the transcript is the previous one with exactly one turn appended,
that turn has role `user` and carries the input exactly as composed, the
input box is empty, `isLoading` is true, and a request has been dispatched. -/
theorem handleSendMessageDispatch_accepted (s : AppState)
    (h : trim s.inputMessage ≠ "") :
    (handleSendMessageDispatch s).1.chatMessages =
      s.chatMessages ++ [{ role := "user", content := .string s.inputMessage }] ∧
    (handleSendMessageDispatch s).1.chatMessages.length = s.chatMessages.length + 1 ∧
    (handleSendMessageDispatch s).1.inputMessage = "" ∧
    (handleSendMessageDispatch s).1.isLoading = true ∧
    (handleSendMessageDispatch s).2.isSome = true := by
  rw [dispatch_of_nonblank s h]
  exact ⟨rfl, by simp, rfl, rfl, rfl⟩

/-- Witness for C6: an input with surrounding blanks is recorded untrimmed. -/
theorem handleSendMessageDispatch_accepted_witness :
    trim (inputOnChange "  status? " askedState).inputMessage ≠ "" ∧
    (handleSendMessageDispatch (inputOnChange "  status? " askedState)).1.chatMessages =
      (inputOnChange "  status? " askedState).chatMessages ++
        [{ role := "user",
           content := .string (inputOnChange "  status? " askedState).inputMessage }] ∧
    (handleSendMessageDispatch (inputOnChange "  status? " askedState)).1.chatMessages.length =
      (inputOnChange "  status? " askedState).chatMessages.length + 1 ∧
    (handleSendMessageDispatch (inputOnChange "  status? " askedState)).1.inputMessage = "" ∧
    (handleSendMessageDispatch (inputOnChange "  status? " askedState)).1.isLoading = true ∧
    (handleSendMessageDispatch (inputOnChange "  status? " askedState)).2.isSome = true :=
  ⟨by decide,
   handleSendMessageDispatch_accepted (inputOnChange "  status? " askedState) (by decide)⟩

/-! ## Assistant session: composing from an alert (C7) -/

/-- C7. `handleAskAI` sets the input to `Analyze this alert: ` followed by the
alert's type, ` - ` and the alert's description, so the input contains both the
type and the description; the transcript and `isLoading` are unchanged. On the
first render with the ransomware alert the transcript stays at length 0. -/
theorem handleAskAI_compose :
    (∀ (s : AppState) (alert : Alert),
      (handleAskAI s alert).inputMessage =
        "Analyze this alert: " ++ alert.type ++ " - " ++ alert.description ∧
      alert.type.data <:+: (handleAskAI s alert).inputMessage.data ∧
      alert.description.data <:+: (handleAskAI s alert).inputMessage.data ∧
      (handleAskAI s alert).chatMessages = s.chatMessages ∧
      (handleAskAI s alert).isLoading = s.isLoading) ∧
    (handleAskAI initialState ransomwareAlert).inputMessage =
      "Analyze this alert: Ransomware - File encryption activity detected" ∧
    (handleAskAI initialState ransomwareAlert).chatMessages.length = 0 ∧
    (handleAskAI initialState ransomwareAlert).isLoading = false := by
  refine ⟨?_, by decide, by decide, by decide⟩
  intro s alert
  refine ⟨rfl, ?_, ?_, rfl, rfl⟩
  · exact ⟨"Analyze this alert: ".data, (" - " ++ alert.description).data, by
      simp [handleAskAI]⟩
  · exact ⟨("Analyze this alert: " ++ alert.type ++ " - ").data, [], by
      simp [handleAskAI]⟩

/-! ## Triage filter: order, idempotence, identity (C8-C10) -/

/-- C8. Whatever `toLowerCase` is, the filtered view is a sublist of the
input: it is obtained by deleting elements, so every retained alert is an
unaltered element of the input, the retained alerts keep their relative order
and multiplicity, the view is never longer than the input, and an empty input
gives an empty view. -/
theorem filteredAlerts_sublist :
    (∀ (toLowerCase : String → String) (alerts : List Alert)
        (searchTerm filterSeverity : String),
      List.Sublist (filteredAlerts toLowerCase alerts searchTerm filterSeverity) alerts ∧
      (∀ alert ∈ filteredAlerts toLowerCase alerts searchTerm filterSeverity,
        alert ∈ alerts) ∧
      (∀ alert : Alert,
        (filteredAlerts toLowerCase alerts searchTerm filterSeverity).count alert ≤
          alerts.count alert) ∧
      (filteredAlerts toLowerCase alerts searchTerm filterSeverity).length ≤ alerts.length) ∧
    (∀ (toLowerCase : String → String) (searchTerm filterSeverity : String),
      filteredAlerts toLowerCase [] searchTerm filterSeverity = []) := by
  refine ⟨?_, fun _ _ _ => rfl⟩
  intro toLowerCase alerts searchTerm filterSeverity
  have hsub :
      List.Sublist (filteredAlerts toLowerCase alerts searchTerm filterSeverity) alerts :=
    List.filter_sublist alerts
  exact ⟨hsub, fun a ha => hsub.subset ha, fun a => hsub.count_le a, hsub.length_le⟩

/-- C9. Whatever `toLowerCase` is, filtering the filtered view again with the
same search term and severity filter gives the same list. -/
theorem filteredAlerts_idempotent (toLowerCase : String → String) (alerts : List Alert)
    (searchTerm filterSeverity : String) :
    filteredAlerts toLowerCase
        (filteredAlerts toLowerCase alerts searchTerm filterSeverity)
        searchTerm filterSeverity =
      filteredAlerts toLowerCase alerts searchTerm filterSeverity := by
  simp [filteredAlerts, List.filter_filter]

/-- C10. For every `toLowerCase` that maps the empty string to itself, with
the severity filter `all` and the empty search term the filtered view is the
input list itself: same elements, same order, same length. -/
theorem filteredAlerts_all_empty (toLowerCase : String → String)
    (hempty : toLowerCase "" = "") (alerts : List Alert) :
    filteredAlerts toLowerCase alerts "" "all" = alerts ∧
    (filteredAlerts toLowerCase alerts "" "all").length = alerts.length := by
  have h : filteredAlerts toLowerCase alerts "" "all" = alerts := by
    unfold filteredAlerts
    rw [List.filter_eq_self]
    intro a _
    simp [matchesSearch_empty toLowerCase hempty, matchesSeverity]
  exact ⟨h, by rw [h]⟩

/-- Witness for C10: the six mock alerts under the initial query. -/
theorem filteredAlerts_all_empty_witness :
    asciiToLowerCase "" = "" ∧
    filteredAlerts asciiToLowerCase mockAlerts "" "all" = mockAlerts ∧
    (filteredAlerts asciiToLowerCase mockAlerts "" "all").length = mockAlerts.length :=
  ⟨rfl, filteredAlerts_all_empty asciiToLowerCase rfl mockAlerts⟩

/-! ## Assistant session: the request body (C11) -/

/-- C11. When the input is not blank, the body handed to `fetch` is the whole
transcript to date, the user turn just appended included and last: it has the
length of the transcript, and its i-th element is the role and content of the
i-th turn, for every position i. -/
theorem handleSendMessageDispatch_body (s : AppState)
    (h : trim s.inputMessage ≠ "") :
    ∃ body : List RequestMessage,
      (handleSendMessageDispatch s).2 = some body ∧
      (handleSendMessageDispatch s).1.chatMessages =
        s.chatMessages ++ [{ role := "user", content := .string s.inputMessage }] ∧
      body.length = (handleSendMessageDispatch s).1.chatMessages.length ∧
      body.map (fun m => (m.role, m.content)) =
        (handleSendMessageDispatch s).1.chatMessages.map (fun m => (m.role, m.content)) ∧
      ∀ i : Nat,
        body[i]? =
          ((handleSendMessageDispatch s).1.chatMessages[i]?).map
            (fun m => ({ role := m.role, content := m.content } : RequestMessage)) := by
  rw [dispatch_of_nonblank s h]
  refine ⟨requestBody (s.chatMessages ++ [userMessage s.inputMessage]), rfl, rfl, ?_, ?_, ?_⟩
  · simp [requestBody]
  · simp [requestBody]
  · intro i
    unfold requestBody
    exact List.getElem?_map _ _ _

/-- Witness for C11: a follow-up question after one completed exchange sends
all three turns, in order. -/
theorem handleSendMessageDispatch_body_witness :
    trim followUpState.inputMessage ≠ "" ∧
    (handleSendMessageDispatch followUpState).2 =
      some [{ role := "user", content := .string "Is this ransomware?" },
            { role := "assistant", content := .string "Likely ransomware, isolate host" },
            { role := "user", content := .string "What next?" }] ∧
    ∃ body : List RequestMessage,
      (handleSendMessageDispatch followUpState).2 = some body ∧
      (handleSendMessageDispatch followUpState).1.chatMessages =
        followUpState.chatMessages ++
          [{ role := "user", content := .string followUpState.inputMessage }] ∧
      body.length = (handleSendMessageDispatch followUpState).1.chatMessages.length ∧
      body.map (fun m => (m.role, m.content)) =
        (handleSendMessageDispatch followUpState).1.chatMessages.map
          (fun m => (m.role, m.content)) ∧
      ∀ i : Nat,
        body[i]? =
          ((handleSendMessageDispatch followUpState).1.chatMessages[i]?).map
            (fun m => ({ role := m.role, content := m.content } : RequestMessage)) :=
  ⟨by decide, by decide, handleSendMessageDispatch_body followUpState (by decide)⟩

/-! ## Assistant session: the transcript is append-only (C12) -/

/-- C12. For every state and every session operation that leaves a state, the
transcript before is a prefix of the transcript after. Composing from an alert
and editing the input leave it as it is; a send leaves it as it is or appends
one turn with role `user` carrying the input; a settled exchange appends one
turn with role `assistant`, carrying the reply on success and the notice on
failure. Over any sequence of operations the starting transcript stays a
prefix, and from the first render every turn has role `user` or `assistant`.
The only operation that leaves no state is the settlement with payload `null`,
which unmounts the component. -/
theorem chatMessages_append_only :
    (∀ (s s' : AppState) (op : SessionOp),
      applyOp op s = some s' → s.chatMessages <+: s'.chatMessages) ∧
    (∀ (s : AppState) (alert : Alert), (handleAskAI s alert).chatMessages = s.chatMessages) ∧
    (∀ (s : AppState) (value : String), (inputOnChange value s).chatMessages = s.chatMessages) ∧
    (∀ s : AppState,
      (handleSendMessageDispatch s).1.chatMessages = s.chatMessages ∨
      (handleSendMessageDispatch s).1.chatMessages =
        s.chatMessages ++ [{ role := "user", content := .string s.inputMessage }]) ∧
    (∀ (s : AppState) (r : JsValue),
      (handleSendMessageSettle (.okJson (.value r)) s).map (fun t => t.chatMessages) =
        some (s.chatMessages ++ [{ role := "assistant", content := r }])) ∧
    (∀ (s s' : AppState) (o : FetchOutcome),
      handleSendMessageSettle o s = some s' →
        ∃ m : ChatMessage, m.role = "assistant" ∧
          s'.chatMessages = s.chatMessages ++ [m]) ∧
    (∀ (s s' : AppState) (ops : List SessionOp),
      runOps ops s = some s' → s.chatMessages <+: s'.chatMessages) ∧
    (∀ (ops : List SessionOp) (s' : AppState),
      runOps ops initialState = some s' →
        ∀ m ∈ s'.chatMessages, m.role = "user" ∨ m.role = "assistant") ∧
    (∀ (s : AppState) (op : SessionOp),
      applyOp op s = none ↔ op = .settle (.okJson .null)) := by
  refine ⟨fun s s' op h => applyOp_extends op s s' h, fun _ _ => rfl, fun _ _ => rfl,
    dispatch_chatMessages, fun _ _ => rfl, ?_,
    fun s s' ops h => runOps_extends ops s s' h, ?_, ?_⟩
  · intro s s' o h
    obtain ⟨m, hm, hchat, _⟩ := settle_some o s s' h
    exact ⟨m, hm, hchat⟩
  · intro ops s' hrun
    apply runOps_roles ops initialState s' hrun
    intro m hm
    cases hm
  · intro s op
    cases op with
    | settle o =>
      simp only [applyOp, settle_eq_none_iff]
      constructor
      · intro h; rw [h]
      · intro h; injection h
    | composeFromAlert alert => simp [applyOp]
    | editInput value => simp [applyOp]
    | send => simp [applyOp]
    | pressKey key => simp [applyOp]
    | clickSend => simp [applyOp]

/-- Witness for C12: the history `sampleOps` from the first render leaves a
state, whose transcript extends the empty one by four turns. -/
theorem chatMessages_append_only_witness :
    runOps sampleOps initialState = some sampleFinalState ∧
    initialState.chatMessages <+: sampleFinalState.chatMessages ∧
    (∀ m ∈ sampleFinalState.chatMessages, m.role = "user" ∨ m.role = "assistant") ∧
    sampleFinalState.chatMessages.map (fun m => m.role) =
      ["user", "assistant", "user", "assistant"] :=
  ⟨by decide,
   chatMessages_append_only.2.2.2.2.2.2.1 initialState sampleFinalState sampleOps (by decide),
   chatMessages_append_only.2.2.2.2.2.2.2.1 sampleOps sampleFinalState (by decide),
   by decide⟩

/-! ## Alert store: status update (C13) -/

/-- C13. `updateStatus` with an id that no record of the store has fails with
`NotFound` and leaves the store as it was. With an id that some record has, the
store splits around the first such record, that record alone gets the new
status and is returned, and every other record is untouched. In every case
`getAll` afterwards lists the same ids in the same order, the same number of
records, and records equal to the old ones in every field but the status. -/
theorem updateStatus_contract (store : List Alert) (id : Nat) (newStatus : String) :
    ((∀ a ∈ store, a.id ≠ id) →
      updateStatus store id newStatus = (store, .error .NotFound)) ∧
    ((∃ a ∈ store, a.id = id) →
      ∃ (pre : List Alert) (a0 : Alert) (post : List Alert),
        store = pre ++ a0 :: post ∧ a0.id = id ∧ (∀ b ∈ pre, b.id ≠ id) ∧
        updateStatus store id newStatus =
          (pre ++ { a0 with status := newStatus } :: post,
           .ok { a0 with status := newStatus })) ∧
    (getAll (updateStatus store id newStatus).1).map (fun a => a.id) =
      (getAll store).map (fun a => a.id) ∧
    (getAll (updateStatus store id newStatus).1).length = (getAll store).length ∧
    (getAll (updateStatus store id newStatus).1).map Alert.withoutStatus =
      (getAll store).map Alert.withoutStatus := by
  refine ⟨updateStatus_missing store id newStatus, updateStatus_present store id newStatus,
    updateStatus_ids store id newStatus, ?_, updateStatus_withoutStatus store id newStatus⟩
  have hlen := congrArg List.length (updateStatus_ids store id newStatus)
  simpa [getAll] using hlen

/-- Witness for C13: on `mockAlerts`, id 99 is unknown and the store is
unchanged; id 3 is known and the store splits around the third record. -/
theorem updateStatus_contract_witness :
    (∀ a ∈ mockAlerts, a.id ≠ 99) ∧
    updateStatus mockAlerts 99 "resolved" = (mockAlerts, .error .NotFound) ∧
    (∃ a ∈ mockAlerts, a.id = 3) ∧
    (∃ (pre : List Alert) (a0 : Alert) (post : List Alert),
      mockAlerts = pre ++ a0 :: post ∧ a0.id = 3 ∧ (∀ b ∈ pre, b.id ≠ 3) ∧
      updateStatus mockAlerts 3 "resolved" =
        (pre ++ { a0 with status := "resolved" } :: post,
         .ok { a0 with status := "resolved" })) ∧
    (getAll (updateStatus mockAlerts 3 "resolved").1).map (fun a => a.id) =
      [1, 2, 3, 4, 5, 6] ∧
    (getAll (updateStatus mockAlerts 3 "resolved").1).map (fun a => a.status) =
      ["open", "investigating", "resolved", "open", "resolved", "investigating"] :=
  ⟨by decide,
   (updateStatus_contract mockAlerts 99 "resolved").1 (by decide),
   by decide,
   (updateStatus_contract mockAlerts 3 "resolved").2.1 (by decide),
   by decide, by decide⟩

end AegisSOC
